import Mathlib

/-!
Verification of the TWSE data-center acquisition pipeline
(`src/server.py`, `src/storage.py`): incremental fetch windows,
idempotent upserts, return computation and broadcasting, price
sanity filtering, local-era calendar conversion, field parsing,
and market-classification routing.

Dates that only ever flow through `+ timedelta(days=1)` and order
comparisons are modelled as natural-number day indices; dates whose
calendar structure matters (era conversion, ISO weeks, month ends)
are modelled by an explicit `Date` structure.  Exact rational
arithmetic stands in for Python floats; the spots where float
rounding is material are noted at the definitions.
-/

namespace TWSE

/-! ## Incremental fetch window (`update_stocks`, src/server.py 1506-1518)

The route handler computes, per symbol, an effective fetch start:
```
effective_start_date = start_date
latest_dt = latest_price_date_map.get(symbol)
if latest_dt is not None:
    next_day = (latest_dt + timedelta(days=1)).strftime('%Y-%m-%d')
    if end_date is None or next_day <= (end_date or next_day):
        if next_day > start_date:
            effective_start_date = next_day
```
Dates are modelled as `ℕ` day indices: the Python code compares
ISO `YYYY-MM-DD` strings, whose lexicographic order coincides with
chronological order, and `+ 1` stands for `+ timedelta(days=1)`.
`end_date.getD next_day` is exactly Python's `(end_date or next_day)`
under the guard `end_date is None or ...`. -/
def effective_start_date (start_date : ℕ) (end_date : Option ℕ)
    (latest_dt : Option ℕ) : ℕ :=
  match latest_dt with
  | none => start_date
  | some l =>
    let next_day := l + 1
    if next_day ≤ end_date.getD next_day then
      if start_date < next_day then next_day else start_date
    else start_date

/-! ## Price upsert with duplicate accounting (`update_stocks`, src/server.py 1549-1600)

The `stock_prices` table has primary key `(symbol, date)` and value columns
`open_price, high_price, low_price, close_price, volume`.  Before writing a
batch, the handler counts the batch dates already present for the symbol
(`SELECT date FROM stock_prices WHERE symbol = %s AND date IN (...)`,
collected into a Python set), then performs a multi-row
`INSERT ... ON CONFLICT (symbol, date) DO UPDATE` overwriting every value
column, and reports `max(len(values) - duplicate_count, 0)` as the true
new-row count. -/

/-- Value columns of one `stock_prices` row. -/
structure PriceRow where
  open_price : ℚ
  high_price : ℚ
  low_price : ℚ
  close_price : ℚ
  volume : ℤ
deriving DecidableEq

/-- The `stock_prices` table, as a map from the `(symbol, date)` primary key
(dates again as day indices). -/
def PriceTable : Type := String × ℕ → Option PriceRow

/-- Effect of one row of the `ON CONFLICT DO UPDATE` insert: the row keyed
`(symbol, v.1)` is inserted or fully overwritten. -/
def upsert_one (t : PriceTable) (symbol : String) (v : ℕ × PriceRow) : PriceTable :=
  fun k => if k = (symbol, v.1) then some v.2 else t k

/-- The batched upsert `execute_values(cursor, upsert_sql, values, ...)`
(src/server.py 1575-1587): rows are written in order, last write wins per
`(symbol, date)` key. -/
def upsert_values (t : PriceTable) (symbol : String)
    (values : List (ℕ × PriceRow)) : PriceTable :=
  values.foldl (fun t v => upsert_one t symbol v) t

/-- Pre-write existence query (src/server.py 1551-1571): the number of
distinct batch dates already present for the symbol (the SQL query returns
existing dates, which the handler collects into a set). -/
def duplicate_count (t : PriceTable) (symbol : String)
    (values : List (ℕ × PriceRow)) : ℕ :=
  (((values.map Prod.fst).dedup).filter (fun d => (t (symbol, d)).isSome)).length

/-- Reported true new-row count (src/server.py 1597):
`max(len(values) - duplicate_count, 0)`, which is truncated subtraction. -/
def new_insert_count (t : PriceTable) (symbol : String)
    (values : List (ℕ × PriceRow)) : ℕ :=
  values.length - duplicate_count t symbol values

/-- The last row of `values` whose date keys to `k` under `symbol`, if any:
characterizes the net effect of the in-order batch write. -/
def last_write (symbol : String) (k : String × ℕ) :
    List (ℕ × PriceRow) → Option PriceRow
  | [] => none
  | v :: vs =>
    (last_write symbol k vs).elim
      (if k = (symbol, v.1) then some v.2 else none) some

theorem upsert_values_apply (symbol : String) (values : List (ℕ × PriceRow))
    (t : PriceTable) (k : String × ℕ) :
    upsert_values t symbol values k =
      (last_write symbol k values).elim (t k) some := by
  induction values generalizing t with
  | nil => rfl
  | cons v vs ih =>
    show upsert_values (upsert_one t symbol v) symbol vs k = _
    rw [ih]
    cases h : last_write symbol k vs with
    | some r => simp [last_write, h]
    | none =>
      simp only [last_write, h, Option.elim]
      unfold upsert_one
      split <;> simp_all

theorem last_write_isSome_of_mem (symbol : String) (d : ℕ)
    (values : List (ℕ × PriceRow)) (hd : d ∈ values.map Prod.fst) :
    (last_write symbol (symbol, d) values).isSome := by
  induction values with
  | nil => simp at hd
  | cons v vs ih =>
    simp only [List.map_cons, List.mem_cons] at hd
    cases h : last_write symbol (symbol, d) vs with
    | some r => simp [last_write, h]
    | none =>
      rcases hd with hd | hd
      · subst hd
        simp [last_write, h]
      · have := ih hd
        rw [h] at this
        simp at this

/-! ## Kernel-computable rational arithmetic

The Batteries implementations of `Rat.add/sub/mul/inv` are
`@[irreducible]`, so concrete evaluation by `decide` needs wrappers
written with `Rat.divInt`; each is proved equal to the standard
operation, and the standard operations are used in all specification
formulas. -/

/-- Division on ℚ via `Rat.divInt` (evaluates under `decide`; agrees with
`/`, including the `x / 0 = 0` convention). -/
def qdiv (a b : ℚ) : ℚ := Rat.divInt (a.num * b.den) (a.den * b.num)

/-- Multiplication on ℚ via `Rat.divInt`. -/
def qmul (a b : ℚ) : ℚ := Rat.divInt (a.num * b.num) (a.den * b.den)

/-- Addition on ℚ via `Rat.divInt`. -/
def qadd (a b : ℚ) : ℚ := Rat.divInt (a.num * b.den + b.num * a.den) (a.den * b.den)

/-- Subtraction on ℚ via `Rat.divInt`. -/
def qsub (a b : ℚ) : ℚ := Rat.divInt (a.num * b.den - b.num * a.den) (a.den * b.den)

theorem num_eq_mul_den (a : ℚ) : (a.num : ℚ) = a * a.den := by
  have h := Rat.num_div_den a
  have hd : ((a.den : ℚ)) ≠ 0 := by exact_mod_cast a.den_nz
  rw [div_eq_iff hd] at h
  exact h

theorem qmul_eq (a b : ℚ) : qmul a b = a * b := by
  unfold qmul
  rw [Rat.divInt_eq_div]
  push_cast
  have ha : ((a.den : ℚ)) ≠ 0 := by exact_mod_cast a.den_nz
  have hb : ((b.den : ℚ)) ≠ 0 := by exact_mod_cast b.den_nz
  field_simp
  rw [num_eq_mul_den a, num_eq_mul_den b]
  ring

theorem qadd_eq (a b : ℚ) : qadd a b = a + b := by
  unfold qadd
  rw [Rat.divInt_eq_div]
  push_cast
  have ha : ((a.den : ℚ)) ≠ 0 := by exact_mod_cast a.den_nz
  have hb : ((b.den : ℚ)) ≠ 0 := by exact_mod_cast b.den_nz
  field_simp
  rw [num_eq_mul_den a, num_eq_mul_den b]
  ring

theorem qsub_eq (a b : ℚ) : qsub a b = a - b := by
  unfold qsub
  rw [Rat.divInt_eq_div]
  push_cast
  have ha : ((a.den : ℚ)) ≠ 0 := by exact_mod_cast a.den_nz
  have hb : ((b.den : ℚ)) ≠ 0 := by exact_mod_cast b.den_nz
  field_simp
  rw [num_eq_mul_den a, num_eq_mul_den b]
  ring

theorem qdiv_eq (a b : ℚ) : qdiv a b = a / b := by
  unfold qdiv
  rw [Rat.divInt_eq_div]
  push_cast
  rcases eq_or_ne b 0 with hb | hb
  · subst hb; simp
  · have hbn : ((b.num : ℚ)) ≠ 0 := by
      exact_mod_cast Rat.num_ne_zero.mpr hb
    have ha : ((a.den : ℚ)) ≠ 0 := by exact_mod_cast a.den_nz
    have hbd : ((b.den : ℚ)) ≠ 0 := by exact_mod_cast b.den_nz
    field_simp
    rw [num_eq_mul_den a, num_eq_mul_den b]
    ring

/-! ## Daily return calculator (`calculate_returns`, src/server.py 977-1013)

For `frequency='daily'` the method sorts the series by date, returns `[]`
when fewer than 2 points remain, computes `df['return'] = close.pct_change()`
(`NaN` at position 0, `close_t/close_{t-1} - 1` after), computes
`df['cumulative_return'] = (1 + df['return']).cumprod() - 1` (pandas
`cumprod` skips the leading `NaN`), and emits one record per row whose
daily return is not `NaN`, with both values rounded to 6 decimals and a
`NaN` cumulative replaced by `0.0`.  Closes are modelled as exact
rationals; `round6` models Python's `round(x, 6)` (Python rounds ties to
even, Mathlib's `round` rounds ties up; no value in this development is a
tie). -/

/-- Round a rational to the nearest integer, halves up: `⌊q + 1/2⌋`,
written with `Int.fdiv` so that it evaluates inside `decide`. -/
def rat_round (q : ℚ) : ℤ := Int.fdiv (2 * q.num + (q.den : ℤ)) (2 * (q.den : ℤ))

/-- Python `round(x, 6)`. -/
def round6 (q : ℚ) : ℚ := Rat.divInt (rat_round (qmul q 1000000)) 1000000

/-- Pandas `Series.pct_change()`: `NaN` (modelled `none`) at position 0,
then `cur/prev - 1` for each consecutive pair. -/
def pct_change : List ℚ → List (Option ℚ)
  | [] => []
  | c :: cs => none :: List.zipWith (fun prev cur => some (qsub (qdiv cur prev) 1)) (c :: cs) cs

/-- Pandas `(1 + r).cumprod()` with default `skipna=True`: `NaN` entries
stay `NaN` but do not poison the running product. -/
def cumprod1p (acc : ℚ) : List (Option ℚ) → List (Option ℚ)
  | [] => []
  | none :: rs => none :: cumprod1p acc rs
  | some r :: rs => some (qmul acc (qadd 1 r)) :: cumprod1p (qmul acc (qadd 1 r)) rs

/-- One output record of the daily branch (src/server.py 1005-1013): rows
with `NaN` daily return are skipped (`pd.notna` guard), a `NaN` cumulative
becomes `0.0`, both values are rounded to 6 decimals. -/
def daily_row (rc : Option ℚ × Option ℚ) : Option (ℚ × ℚ) :=
  match rc with
  | (none, _) => none
  | (some r, some c) => some (round6 r, round6 c)
  | (some r, none) => some (round6 r, 0)

/-- The daily branch of `calculate_returns`, on the close column of a
series already sorted ascending by date: the emitted
`(return, cumulative_return)` pairs. -/
def calculate_returns_daily (closes : List ℚ) : List (ℚ × ℚ) :=
  if closes.length < 2 then []
  else
    ((pct_change closes).zip
      ((cumprod1p 1 (pct_change closes)).map (Option.map (fun p => qsub p 1)))).filterMap
      daily_row

/-- Spec-side formula (Claim C3 wording): the daily return at position
`t ≥ 1` is `close_t/close_{t-1} - 1`. -/
def spec_daily_return (closes : List ℚ) (t : ℕ) : ℚ :=
  closes.getD t 0 / closes.getD (t - 1) 0 - 1

/-- Spec-side formula (Claim C3 wording): the cumulative return at
position `t` is the product of `(1 + daily return)` over positions
`1..t`, minus 1. -/
def spec_cumulative_return (closes : List ℚ) (t : ℕ) : ℚ :=
  (∏ i in Finset.Icc 1 t, (1 + spec_daily_return closes i)) - 1

/-- The consecutive-pair returns against a given previous close: the
`some`-valued tail of `pct_change`. -/
def rets_from (prev : ℚ) : List ℚ → List ℚ
  | [] => []
  | c :: cs => (qsub (qdiv c prev) 1) :: rets_from c cs

/-- The fused emit loop on the all-`some` tail: running product `acc` of
`(1 + r)` alongside the rounded records. -/
def daily_fold (acc : ℚ) : List ℚ → List (ℚ × ℚ)
  | [] => []
  | r :: rs =>
    (round6 r, round6 (qsub (qmul acc (qadd 1 r)) 1)) :: daily_fold (qmul acc (qadd 1 r)) rs

theorem rets_from_zipWith (cs : List ℚ) : ∀ prev : ℚ,
    List.zipWith (fun prev cur => some (qsub (qdiv cur prev) 1)) (prev :: cs) cs
      = (rets_from prev cs).map some := by
  induction cs with
  | nil => intro prev; rfl
  | cons c cs ih => intro prev; simp [rets_from, List.zipWith, ih c]

theorem rets_from_length (cs : List ℚ) : ∀ prev : ℚ,
    (rets_from prev cs).length = cs.length := by
  induction cs with
  | nil => intro prev; rfl
  | cons c cs ih => intro prev; simp [rets_from, ih c]

theorem rets_from_getD (cs : List ℚ) : ∀ (prev : ℚ) (j : ℕ), j < cs.length →
    (rets_from prev cs).getD j 0 = cs.getD j 0 / ((prev :: cs).getD j 0) - 1 := by
  induction cs with
  | nil => intro prev j h; simp at h
  | cons c cs ih =>
    intro prev j h
    cases j with
    | zero => simp [rets_from, qsub_eq, qdiv_eq]
    | succ j =>
      have hj : j < cs.length := by simpa using h
      simpa [rets_from] using ih c j hj

theorem zip_cumprod_filterMap (rs : List ℚ) : ∀ acc : ℚ,
    (((rs.map some).zip
        ((cumprod1p acc (rs.map some)).map (Option.map (fun p => qsub p 1)))).filterMap
      daily_row) = daily_fold acc rs := by
  induction rs with
  | nil => intro acc; rfl
  | cons r rs ih =>
    intro acc
    simp only [List.map_cons, cumprod1p, List.zip_cons_cons, List.filterMap_cons,
      daily_row, Option.map_some', daily_fold]
    rw [ih (qmul acc (qadd 1 r))]

theorem daily_fold_getElem? (rs : List ℚ) : ∀ (acc : ℚ) (j : ℕ), j < rs.length →
    (daily_fold acc rs)[j]?
      = some (round6 (rs.getD j 0),
          round6 (acc * (∏ i in Finset.range (j + 1), (1 + rs.getD i 0)) - 1)) := by
  induction rs with
  | nil => intro acc j h; simp at h
  | cons r rs ih =>
    intro acc j h
    cases j with
    | zero => simp [daily_fold, Finset.prod_range_one, qsub_eq, qmul_eq, qadd_eq]
    | succ j =>
      have hj : j < rs.length := by simpa using h
      simp only [daily_fold, List.getElem?_cons_succ]
      rw [ih (qmul acc (qadd 1 r)) j hj]
      simp only [qmul_eq, qadd_eq]
      have hsplit : (∏ i in Finset.range (j + 1 + 1), (1 + (r :: rs).getD i 0))
          = (∏ i in Finset.range (j + 1), (1 + (r :: rs).getD (i + 1) 0))
            * (1 + (r :: rs).getD 0 0) :=
        Finset.prod_range_succ' _ _
      have hprod : acc * (1 + r) * (∏ i in Finset.range (j + 1), (1 + rs.getD i 0))
          = acc * (∏ i in Finset.range (j + 1 + 1), (1 + (r :: rs).getD i 0)) := by
        rw [hsplit]
        simp only [List.getD_cons_succ, List.getD_cons_zero]
        ring
      rw [hprod]
      simp [List.getD_cons_succ]

/-! ## NaN/Infinity coercion before the returns write
(`update_stocks`, src/server.py 1690-1709)

Each of the four return fields is coerced with
`if x is not None and (math.isinf(x) or math.isnan(x)): x = None`
before the tuple is appended to the batch handed to the
`stock_returns` upsert. -/

/-- A Python float value as it can reach the returns write: a finite
value (modelled as an exact rational) or a non-finite sentinel. -/
inductive PyFloat where
  | fin (q : ℚ)
  | nan
  | inf
  | ninf
deriving DecidableEq

/-- Python `x is not None and (math.isinf(x) or math.isnan(x))`
(`None` is modelled as `none`). -/
def is_bad_float : Option PyFloat → Bool
  | some PyFloat.nan => true
  | some PyFloat.inf => true
  | some PyFloat.ninf => true
  | _ => false

/-- The per-field coercion: a non-finite value becomes `None`. -/
def coerce_return_field (x : Option PyFloat) : Option PyFloat :=
  if is_bad_float x then none else x

/-- One row of the batch handed to the `stock_returns` upsert. -/
structure ReturnRowIn where
  symbol : String
  date : String
  daily_return : Option PyFloat
  weekly_return : Option PyFloat
  monthly_return : Option PyFloat
  cumulative_return : Option PyFloat
deriving DecidableEq

/-- The four coercions applied to one row (src/server.py 1693-1700),
producing the tuple appended at 1702-1709. -/
def coerce_return_row (r : ReturnRowIn) : ReturnRowIn :=
  { r with
    daily_return := coerce_return_field r.daily_return
    weekly_return := coerce_return_field r.weekly_return
    monthly_return := coerce_return_field r.monthly_return
    cumulative_return := coerce_return_field r.cumulative_return }

/-- The batch `return_values` as built by the loop over `daily_returns`:
every tuple passes through the four coercions before being appended. -/
def return_values_of (rows : List ReturnRowIn) : List ReturnRowIn :=
  rows.map coerce_return_row

theorem is_bad_float_coerce (x : Option PyFloat) :
    is_bad_float (coerce_return_field x) = false := by
  unfold coerce_return_field
  split
  · rfl
  · simp_all

/-! ## Calendar

`fetch_twse_stock_data` builds `datetime` values from local-era (ROC)
dates and compares them chronologically; the returns-broadcast logic
uses `date.isocalendar()[1]`, `date.year` and `date.month`.  Dates are
modelled as explicit year/month/day triples with the Gregorian rules
(`datetime` raises on an invalid triple, which the fetcher catches by
skipping the row). -/

/-- A Gregorian calendar date. -/
structure Date where
  year : ℕ
  month : ℕ
  day : ℕ
deriving DecidableEq

/-- Gregorian leap-year rule. -/
def is_leap (y : ℕ) : Bool := (y % 4 == 0 && y % 100 != 0) || y % 400 == 0

/-- Days in a month (Gregorian). -/
def days_in_month (y m : ℕ) : ℕ :=
  if m = 2 then (if is_leap y then 29 else 28)
  else if m = 4 ∨ m = 6 ∨ m = 9 ∨ m = 11 then 30
  else 31

/-- The triples accepted by Python's `datetime(year, month, day)`
(`MINYEAR = 1`, `MAXYEAR = 9999`). -/
def valid_date (dt : Date) : Bool :=
  1 ≤ dt.year && dt.year ≤ 9999 && 1 ≤ dt.month && dt.month ≤ 12 &&
    1 ≤ dt.day && dt.day ≤ days_in_month dt.year dt.month

/-- Chronological sort key; on valid dates its order is exactly the
order of Python `datetime` values (and of ISO `YYYY-MM-DD` strings). -/
def date_key (dt : Date) : ℕ := dt.year * 10000 + dt.month * 100 + dt.day

/-- Chronological `≤` on dates. -/
def date_le (a b : Date) : Bool := date_key a ≤ date_key b

/-- Day count since 0000-03-01 (a Wednesday), for weekday and
day-arithmetic; the standard civil-from-days construction. -/
def day_number (dt : Date) : ℕ :=
  let y := if dt.month ≤ 2 then dt.year - 1 else dt.year
  let era := y / 400
  let yoe := y % 400
  let mp := if 2 < dt.month then dt.month - 3 else dt.month + 9
  let doy := (153 * mp + 2) / 5 + dt.day - 1
  let doe := yoe * 365 + yoe / 4 - yoe / 100 + doy
  era * 146097 + doe

/-- Inverse of `day_number` (for valid day counts). -/
def date_of_day_number (z : ℕ) : Date :=
  let era := z / 146097
  let doe := z % 146097
  let yoe := (doe - doe / 1460 + doe / 36524 - doe / 146096) / 365
  let y := yoe + era * 400
  let doy := doe - (365 * yoe + yoe / 4 - yoe / 100)
  let mp := (5 * doy + 2) / 153
  let d := doy - (153 * mp + 2) / 5 + 1
  let m := if mp < 10 then mp + 3 else mp - 9
  ⟨if m ≤ 2 then y + 1 else y, m, d⟩

/-- Date `n` days later. -/
def add_days (dt : Date) (n : ℕ) : Date := date_of_day_number (day_number dt + n)

/-- ISO weekday: Monday = 1 .. Sunday = 7 (Python
`date.isocalendar()[2]`); 0000-03-01 was a Wednesday. -/
def iso_weekday (dt : Date) : ℕ := (day_number dt + 2) % 7 + 1

/-- Ordinal day within the year (1-based). -/
def ordinal_day (dt : Date) : ℕ := day_number dt - day_number ⟨dt.year, 1, 1⟩ + 1

/-- Number of ISO weeks in the ISO year `y` (52 or 53). -/
def iso_weeks_in (y : ℕ) : ℕ :=
  if iso_weekday ⟨y, 1, 1⟩ = 4 ∨ (is_leap y ∧ iso_weekday ⟨y, 1, 1⟩ = 3) then 53 else 52

/-- ISO week number (Python `date.isocalendar()[1]`). -/
def iso_week (dt : Date) : ℕ :=
  let w := (ordinal_day dt + 10 - iso_weekday dt) / 7
  if w = 0 then iso_weeks_in (dt.year - 1)
  else if w = 53 ∧ iso_weeks_in dt.year = 52 then 1
  else w

/-! ## Upstream cell parsing (`fetch_twse_stock_data`, src/server.py 512-549)

Upstream cells are strings; they are modelled as `List Char`.  The code
strips thousands separators with `.replace(',', '')` and parses with
`int(...)`/`float(...)`, where a parse failure raises `ValueError`,
caught at src/server.py 547 by skipping the row.  `parse_digits` and
`parse_decimal` model `int`/`float` on the digit-string shapes the
exchange emits (plain digit runs, optionally with one decimal point);
any other shape is a parse failure. -/

/-- Python `s.replace(',', '')`. -/
def strip_commas (s : List Char) : List Char := s.filter (fun c => c ≠ ',')

/-- Python `s.split(sep)` (always at least one, possibly empty, part). -/
def split_on_char (sep : Char) (cs : List Char) : List (List Char) :=
  cs.foldr
    (fun c r =>
      if c = sep then [] :: r
      else
        match r with
        | [] => [[c]]
        | g :: gs => (c :: g) :: gs)
    [[]]

/-- Python `int(s)` on a plain digit run. -/
def parse_digits (cs : List Char) : Option ℕ :=
  if cs = [] then none
  else
    cs.foldl
      (fun acc c =>
        match acc with
        | none => none
        | some n => if c.isDigit then some (n * 10 + (c.toNat - 48)) else none)
      (some 0)

/-- Python `float(s)` on `digits` or `digits.digits`. -/
def parse_decimal (cs : List Char) : Option ℚ :=
  match split_on_char '.' cs with
  | [ip] => (parse_digits ip).map (fun n => (n : ℚ))
  | [ip, fp] =>
    match parse_digits ip, parse_digits fp with
    | some i, some f => some (Rat.divInt ((i : ℤ) * 10 ^ fp.length + (f : ℤ)) (10 ^ fp.length))
    | _, _ => none
  | _ => none

/-- Python `round(x, 2)` (applied to every stored price). -/
def round2 (q : ℚ) : ℚ := Rat.divInt (rat_round (qmul q 100)) 100

/-- Volume cell (src/server.py 526):
`int(row[1].replace(',', '')) if row[1] != '--' else 0`. -/
def parse_volume_cell (s : List Char) : Option ℤ :=
  if s = ['-', '-'] then some 0
  else (parse_digits (strip_commas s)).map (fun n => (n : ℤ))

/-- Price cell (src/server.py 527-530):
`float(row[k].replace(',', '')) if row[k] != '--' else 0`. -/
def parse_price_cell (s : List Char) : Option ℚ :=
  if s = ['-', '-'] then some 0
  else parse_decimal (strip_commas s)

/-! ## Exchange fetcher row processing (`fetch_twse_stock_data`,
src/server.py 512-549)

For each upstream row the code: splits `row[0]` on `/` and requires 3
parts; parses them as integers and adds 1911 to the year (ROC era →
Gregorian); constructs a `datetime` (an invalid triple raises and the
row is skipped); keeps the row only if the converted date lies in the
inclusive `[start_dt, end_dt]` window; parses volume and the four
prices (comma-stripped, `--` ↦ 0); appends the row only when all four
prices are strictly below 30000 (otherwise logs a warning and drops
it), with prices rounded to 2 decimals.  The final `.sort` by date is
not modelled; the claims here concern which rows are retained and with
what field values. -/

/-- The parsed fields of one upstream row, before the price-sanity
check. -/
structure ParsedTwseRow where
  dt : Date
  volume : ℤ
  open_price : ℚ
  high_price : ℚ
  low_price : ℚ
  close_price : ℚ
deriving DecidableEq

/-- A resulting price record (src/server.py 535-543). -/
structure PriceRec where
  ticker : String
  dt : Date
  open_price : ℚ
  high_price : ℚ
  low_price : ℚ
  close_price : ℚ
  volume : ℤ
deriving DecidableEq

/-- Date part of one upstream row (src/server.py 515-521): split
`row[0]` on `/`, require 3 parts, parse integers, add 1911 to the year,
build the `datetime` (invalid triple raises, caught as a skip). -/
def twse_parse_date (row : List (List Char)) : Option Date :=
  match row.get? 0 with
  | none => none
  | some dateCell =>
    match split_on_char '/' dateCell with
    | [ys, ms, ds] =>
      match parse_digits ys, parse_digits ms, parse_digits ds with
      | some y, some m, some d =>
        if valid_date ⟨y + 1911, m, d⟩ then some ⟨y + 1911, m, d⟩ else none
      | _, _, _ => none
    | _ => none

/-- Numeric cells of one upstream row (src/server.py 525-530). -/
def twse_parse_numeric (row : List (List Char)) : Option (ℤ × ℚ × ℚ × ℚ × ℚ) :=
  match row.get? 1, row.get? 3, row.get? 4, row.get? 5, row.get? 6 with
  | some vc, some oc, some hc, some lc, some cc =>
    match parse_volume_cell vc, parse_price_cell oc, parse_price_cell hc,
        parse_price_cell lc, parse_price_cell cc with
    | some v, some o, some h, some l, some c => some (v, o, h, l, c)
    | _, _, _, _, _ => none
  | _, _, _, _, _ => none

/-- Parse and window-check one upstream row (src/server.py 512-530):
date parse and era conversion, inclusive window test, then the numeric
cells.  Any failure models the caught `ValueError`/`IndexError` (row
skipped). -/
def twse_parse_in_window (start_dt end_dt : Date) (row : List (List Char)) :
    Option ParsedTwseRow :=
  (twse_parse_date row).bind (fun dt =>
    if date_le start_dt dt ∧ date_le dt end_dt then
      (twse_parse_numeric row).map
        (fun q => ⟨dt, q.1, q.2.1, q.2.2.1, q.2.2.2.1, q.2.2.2.2⟩)
    else none)

/-- The price-sanity bound (src/server.py 533-534): all four prices
strictly below 30000. -/
def price_sanity_ok (o h l c : ℚ) : Bool :=
  o < 30000 && h < 30000 && l < 30000 && c < 30000

/-- Full processing of one upstream row: parse + window, then keep the
row only if it passes the sanity bound, with prices rounded to 2
decimals and ticker `f"{stock_code}.TW"`. -/
def process_twse_row (stock_code : String) (start_dt end_dt : Date)
    (row : List (List Char)) : Option PriceRec :=
  match twse_parse_in_window start_dt end_dt row with
  | none => none
  | some p =>
    if price_sanity_ok p.open_price p.high_price p.low_price p.close_price then
      some ⟨stock_code ++ ".TW", p.dt, round2 p.open_price, round2 p.high_price,
        round2 p.low_price, round2 p.close_price, p.volume⟩
    else none

/-- The month-page row loop (src/server.py 512): each retained row is
appended; dropped rows leave the rest untouched. -/
def fetch_twse_rows (stock_code : String) (start_dt end_dt : Date)
    (rows : List (List (List Char))) : List PriceRec :=
  rows.filterMap (process_twse_row stock_code start_dt end_dt)

/-! ## Generic fallback fetcher row processing (`fetch_yfinance_data`,
src/server.py 937-961)

Rows arrive with numeric fields already parsed; the code keeps a row
iff its date is inside the window (inclusive, compared as ISO strings)
and all four prices are strictly below 30000, rounding prices to 2
decimals and mapping a NaN volume to 0. -/

/-- One row of the yfinance frame (volume `none` models NaN). -/
structure YfRow where
  dt : Date
  open_price : ℚ
  high_price : ℚ
  low_price : ℚ
  close_price : ℚ
  volume : Option ℤ
deriving DecidableEq

/-- Processing of one yfinance row (src/server.py 937-961). -/
def process_yf_row (symbol : String) (start_dt end_dt : Date) (r : YfRow) :
    Option PriceRec :=
  if date_le start_dt r.dt ∧ date_le r.dt end_dt then
    if price_sanity_ok r.open_price r.high_price r.low_price r.close_price then
      some ⟨symbol, r.dt, round2 r.open_price, round2 r.high_price,
        round2 r.low_price, round2 r.close_price, r.volume.getD 0⟩
    else none
  else none

/-! ## Market classification and routing
(`fetch_stock_data` src/server.py 397-445, `is_otc_stock` src/server.py 567-621)

`fetch_stock_data` routes `^TWII` to the dedicated direct
full-history call (`fetch_twii_direct`, returned immediately with no
fallback); otherwise it splits off a `.TW`/`.TWO` suffix, classifies
over-the-counter via suffix `TWO` or `is_otc_stock`, calls the matching
primary fetcher, and falls back to `fetch_yfinance_data` only when the
primary result is `None` or empty.  `is_otc_stock` consults the symbol
catalog cache first, then parses the code as an integer (any failure is
caught and yields `False`), checks a fixed known-code set, and finally
the numeric code-range table.  The fetchers themselves perform network
I/O and are modelled as oracle results supplied in a `FetchEnv`. -/

/-- List-of-chars `startswith`. -/
def begins_with : List Char → List Char → Bool
  | _, [] => true
  | [], _ :: _ => false
  | c :: cs, p :: ps => c = p && begins_with cs ps

/-- Python substring test `pat in s`. -/
def contains_seq (pat : List Char) : List Char → Bool
  | [] => begins_with [] pat
  | c :: rest => begins_with (c :: rest) pat || contains_seq pat rest

/-- One entry of the symbol catalog cache (`self.symbols_cache`). -/
structure CatalogEntry where
  symbol : String
  market : String
deriving DecidableEq

/-- Catalog lookup (src/server.py 571-574): the first cached entry whose
symbol equals the code or starts with `code + "."`, if any, decides the
market. -/
def catalog_market (cache : List CatalogEntry) (stock_code : String) : Option String :=
  (cache.find? (fun st => st.symbol == stock_code ||
      begins_with st.symbol.data (stock_code.data ++ ['.']))).map
    (fun st => st.market)

/-- The fixed known over-the-counter code set (src/server.py 580-592). -/
def known_otc_stocks : List String :=
  ["3443", "4966", "6488", "3034", "3702", "4904", "5269", "6415",
   "1565", "1569", "1580", "2596", "2633", "2719", "2724", "2729",
   "3131", "3149", "3163", "3167", "3169", "3171", "3176", "3178",
   "4102", "4106", "4108", "4116", "4119", "4126", "4128", "4129",
   "5203", "5222", "5234", "5243", "5245", "5251", "5263", "5264",
   "6104", "6116", "6120", "6121", "6122", "6126", "6128", "6129",
   "7556", "7557", "7561", "7566", "7567", "7568", "7569", "7570",
   "8024", "8027", "8028", "8029", "8032", "8033", "8034", "8035",
   "9188", "9802", "9910", "9911", "9912", "9914", "9917", "9918"]

/-- `is_otc_stock` (src/server.py 567-621): catalog first; else
`int(stock_code)` (a parse failure is caught by the bare `except`,
returning `False`; `parse_digits` models the all-digit codes this
market uses), then the known-code set, then the code-range table. -/
def is_otc_stock (cache : List CatalogEntry) (stock_code : String) : Bool :=
  match catalog_market cache stock_code with
  | some mkt => mkt == "上櫃"
  | none =>
    match parse_digits stock_code.data with
    | none => false
    | some n =>
      if stock_code ∈ known_otc_stocks then true
      else if (1500 ≤ n ∧ n ≤ 1999) ∨ (2500 ≤ n ∧ n ≤ 2999) ∨
          (3000 ≤ n ∧ n ≤ 3999) ∨ (4000 ≤ n ∧ n ≤ 4999) ∨
          (5200 ≤ n ∧ n ≤ 5999) ∨ (6100 ≤ n ∧ n ≤ 6999) ∨
          (7500 ≤ n ∧ n ≤ 7999) ∨ (8000 ≤ n ∧ n ≤ 8999) ∨
          (9100 ≤ n ∧ n ≤ 9999) then true
      else false

/-- The upstream calls `fetch_stock_data` can make. -/
inductive FetchCall where
  | twii_direct
  | tpex
  | twse
  | yfinance
deriving DecidableEq

/-- Oracle results of the four fetchers for one invocation: `none`
models a `None` return, `some []` an empty series. -/
structure FetchEnv where
  twii_result : Option (List PriceRec)
  tpex_result : Option (List PriceRec)
  twse_result : Option (List PriceRec)
  yf_result : Option (List PriceRec)

/-- Python `'.TW' in symbol or '.TWO' in symbol` (src/server.py 413). -/
def has_tw_suffix (symbol : String) : Bool :=
  contains_seq (".TW".data) symbol.data || contains_seq (".TWO".data) symbol.data

/-- Python `symbol.split('.')[0]` (src/server.py 414, 417). -/
def stock_code_of (symbol : String) : String :=
  String.mk ((split_on_char '.' symbol.data).getD 0 [])

/-- Python `symbol.split('.')[1]` when a `.TW`/`.TWO` suffix is present,
else `None` (src/server.py 413-418). -/
def market_suffix_of (symbol : String) : Option (List Char) :=
  if has_tw_suffix symbol then (split_on_char '.' symbol.data).get? 1 else none

/-- The over-the-counter routing test (src/server.py 421):
`market_suffix == 'TWO' or self.is_otc_stock(stock_code)`. -/
def routes_otc (cache : List CatalogEntry) (symbol : String) : Bool :=
  (market_suffix_of symbol == some ("TWO".data)) ||
    is_otc_stock cache (stock_code_of symbol)

/-- Python truthiness of a fetcher result (`if result:`): non-`None`
and non-empty. -/
def nonempty_result : Option (List PriceRec) → Bool
  | some (_ :: _) => true
  | _ => false

/-- The routing and fallback structure of `fetch_stock_data`
(src/server.py 397-445): the returned series plus the trace of
upstream calls made. -/
def fetch_stock_data (cache : List CatalogEntry) (symbol : String) (env : FetchEnv) :
    Option (List PriceRec) × List FetchCall :=
  if symbol = "^TWII" then (env.twii_result, [FetchCall.twii_direct])
  else if routes_otc cache symbol then
    if nonempty_result env.tpex_result then (env.tpex_result, [FetchCall.tpex])
    else (env.yf_result, [FetchCall.tpex, FetchCall.yfinance])
  else
    if nonempty_result env.twse_result then (env.twse_result, [FetchCall.twse])
    else (env.yf_result, [FetchCall.twse, FetchCall.yfinance])

/-! ## Weekly/monthly resampling and the daily-row broadcast
(`calculate_returns` src/server.py 1015-1039, `update_stocks`
src/server.py 1664-1710)

For `frequency='weekly'` the code resamples the close series with
pandas `resample('W')` (Sunday-ending bins, right-labelled; empty bins
appear as NaN), takes the last observation per bin, applies
`pct_change(fill_method=None).dropna()` and rounds to 6 decimals;
`'monthly'` uses `resample('ME')` (month-end labels) analogously.  The
update loop then walks the daily records and, per row, scans the
weekly list for the first point with equal ISO week number and equal
calendar year (`break` on the first hit), and the monthly list for the
first point with equal year and month; no hit leaves the field `None`.
(The `weekly_dict`/`monthly_dict` built at src/server.py 1639-1663 are
never read afterwards; the per-row loops at 1670-1688 compute the
values.)  On exact rationals the NaN/Infinity coercions of
src/server.py 1693-1700 are identities, so the ℚ-valued pipeline below
elides them; they are modelled in the `PyFloat` development above.

The accumulator `return_values`, however, is never assigned anywhere in
`update_stocks` (the source has no `return_values = ...`).  Each
iteration's `return_values.append(...)` at line 1702 therefore raises
`NameError` when the name is looked up — after the row's broadcast
values have been computed, before they are stored — caught by the
row-level handler at 1711; the `if return_values:` test at line 1714
raises `NameError` again, caught by the per-symbol handler at 1751, so
the `stock_returns` upsert at line 1716 is unreachable and no return
row is ever persisted.  Both the computed-per-row values and the
unbound-accumulator control flow are modelled below. -/

/-- Label of the weekly resampling bin containing `dt`
(pandas `'W'` = `W-SUN`, right-closed, right-labelled): the Sunday on
or after `dt`. -/
def week_label (dt : Date) : Date := add_days dt ((7 - iso_weekday dt) % 7)

/-- Label of the monthly bin (`'ME'`): the last calendar day of the
month. -/
def month_label (dt : Date) : Date := ⟨dt.year, dt.month, days_in_month dt.year dt.month⟩

/-- `resample(...).last()` at one bin label: the last observation whose
bin label equals `lab` (the series arrives sorted by date). -/
def bin_last (label_of : Date → Date) (lab : Date) (series : List (Date × ℚ)) : Option ℚ :=
  ((series.filter (fun p => label_of p.1 = lab)).getLast?).map Prod.snd

/-- All weekly bin labels from the first observation's to the last
observation's, one per 7 days (pandas generates the empty bins too). -/
def week_labels (first last : Date) : List Date :=
  (List.range ((day_number (week_label last) - day_number (week_label first)) / 7 + 1)).map
    (fun k => add_days (week_label first) (7 * k))

/-- Serial month index. -/
def month_index (dt : Date) : ℕ := dt.year * 12 + (dt.month - 1)

/-- Month-end label of a serial month index. -/
def month_label_of_index (i : ℕ) : Date :=
  ⟨i / 12, i % 12 + 1, days_in_month (i / 12) (i % 12 + 1)⟩

/-- All monthly bin labels from the first observation's month to the
last observation's month. -/
def month_labels (first last : Date) : List Date :=
  (List.range (month_index last - month_index first + 1)).map
    (fun k => month_label_of_index (month_index first + k))

/-- `pct_change(fill_method=None).dropna()` over the bin values: for
each consecutive pair of labels whose bins are both non-empty, the
percent change of the last observations, rounded to 6 decimals and
labelled by the right bin.  A pair touching an empty (NaN) bin is
dropped. -/
def period_returns (labels : List Date) (label_of : Date → Date)
    (series : List (Date × ℚ)) : List (Date × ℚ) :=
  (labels.zip labels.tail).filterMap (fun ab =>
    match bin_last label_of ab.1 series, bin_last label_of ab.2 series with
    | some x, some y => some (ab.2, round6 (qsub (qdiv y x) 1))
    | _, _ => none)

/-- The weekly branch of `calculate_returns` (src/server.py 1015-1026),
restricted to the fields the broadcast reads: period-end label dates and
rounded week-over-week returns. -/
def calculate_returns_weekly (series : List (Date × ℚ)) : List (Date × ℚ) :=
  if series.length < 2 then []
  else
    match series, series.getLast? with
    | p :: _, some q => period_returns (week_labels p.1 q.1) week_label series
    | _, _ => []

/-- The monthly branch of `calculate_returns` (src/server.py 1028-1039),
analogously. -/
def calculate_returns_monthly (series : List (Date × ℚ)) : List (Date × ℚ) :=
  if series.length < 2 then []
  else
    match series, series.getLast? with
    | p :: _, some q => period_returns (month_labels p.1 q.1) month_label series
    | _, _ => []

/-- The weekly broadcast criterion (src/server.py 1676): equal ISO week
number and equal calendar year. -/
def weekly_match (d lab : Date) : Bool := iso_week d = iso_week lab && d.year = lab.year

/-- The monthly broadcast criterion (src/server.py 1686): equal year and
equal month. -/
def monthly_match (d lab : Date) : Bool := d.year = lab.year && d.month = lab.month

/-- The per-daily-row scan loops (src/server.py 1670-1688): the first
matching period point wins (`break`); no match leaves `None`. -/
def first_period_return (match_fn : Date → Date → Bool) (d : Date) :
    List (Date × ℚ) → Option ℚ
  | [] => none
  | (lab, r) :: rest =>
    if match_fn d lab then some r else first_period_return match_fn d rest

/-- One persisted `stock_returns` row in the ℚ-valued pipeline view. -/
structure DailyReturnRow where
  dt : Date
  daily_return : ℚ
  weekly_return : Option ℚ
  monthly_return : Option ℚ
  cumulative_return : ℚ
deriving DecidableEq

/-- The dated daily records: `calculate_returns` daily emits one record
per close-series position `1..n-1`, dated by that position. -/
def daily_records (series : List (Date × ℚ)) : List (Date × (ℚ × ℚ)) :=
  ((series.map Prod.fst).tail).zip (calculate_returns_daily (series.map Prod.snd))

/-- The per-row values the update loop computes (src/server.py
1664-1700): daily and cumulative from the daily records, weekly and
monthly from the first-match scans.  In the source, the statements
computing these values execute for each daily record, and the
subsequent `return_values.append(...)` at line 1702 then raises
`NameError` before storing them — this list records the values each
iteration computes and loses, not rows the program persists. -/
def return_rows_computed (series : List (Date × ℚ)) : List DailyReturnRow :=
  (daily_records series).map (fun dr =>
    ⟨dr.1, dr.2.1,
      first_period_return weekly_match dr.1 (calculate_returns_weekly series),
      first_period_return monthly_match dr.1 (calculate_returns_monthly series),
      dr.2.2⟩)

/-- A raised Python exception reaching an `except` handler. -/
inductive PyError where
  | nameError
deriving DecidableEq

/-- Effect of one iteration's `return_values.append((...))`
(src/server.py 1702) on the accumulator, with the unbound name modelled
as `none`: looking the name up raises `NameError`, caught by the
row-level handler at 1711, so the row's values are discarded and the
name stays unbound.  A bound list (which the source never produces)
would take the append. -/
def append_return_value (acc : Option (List DailyReturnRow)) (r : DailyReturnRow) :
    Option (List DailyReturnRow) :=
  match acc with
  | none => none
  | some l => some (l ++ [r])

/-- The state of `return_values` after the loop over the daily records:
the name starts unbound — the source never assigns it — and every
iteration passes through `append_return_value`. -/
def return_values_after_loop (series : List (Date × ℚ)) : Option (List DailyReturnRow) :=
  (return_rows_computed series).foldl append_return_value none

/-- The per-symbol returns-persist step (src/server.py 1714-1736):
`if return_values:` looks the name up once more; unbound, it raises
`NameError`, which the per-symbol handler at 1751 turns into an entry
of the `errors` list, so the `stock_returns` upsert at 1716 is never
reached.  A bound accumulator would be upserted and reported. -/
def update_returns_result (series : List (Date × ℚ)) :
    Except PyError (List DailyReturnRow) :=
  match return_values_after_loop series with
  | none => Except.error PyError.nameError
  | some l => Except.ok l

theorem foldl_append_unbound (l : List DailyReturnRow) :
    l.foldl append_return_value none = none := by
  induction l with
  | nil => rfl
  | cons r rest ih => exact ih

end TWSE

/-! ## Concrete inputs used by the witness and counterexample theorems -/

/-- A concrete two-row batch for the Claim C2 witness. -/
def c2_batch : List (ℕ × TWSE.PriceRow) :=
  [(1, ⟨100, 101, 99, 100, 5000⟩), (2, ⟨101, 102, 100, 102, 6000⟩)]

/-- Concrete exchange row for the Claim C6 witness: close 29999
(retained). -/
def c6_row_ok : List (List Char) :=
  ["113/05/20".data, "1,000".data, "9,999".data, "100".data, "200".data,
   "50".data, "29999".data]

/-- Concrete exchange row for the Claim C6 witness: close 31000
(dropped). -/
def c6_row_bad : List (List Char) :=
  ["113/05/21".data, "1,000".data, "9,999".data, "100".data, "200".data,
   "50".data, "31000".data]

/-- Parsed form of `c6_row_ok`. -/
def c6_parsed : TWSE.ParsedTwseRow := ⟨⟨2024, 5, 20⟩, 1000, 100, 200, 50, 29999⟩

/-- Concrete fallback row for the Claim C6 witness. -/
def c6_yf : TWSE.YfRow := ⟨⟨2024, 5, 21⟩, 100, 200, 50, 29999, some 1⟩

/-- Concrete exchange row with the `--` sentinel in the open-price cell,
for Claim C8. -/
def c8_row : List (List Char) :=
  ["113/05/20".data, "1,000".data, "9,999".data, "--".data, "200".data,
   "50".data, "100".data]

/-- A concrete price record for routing witnesses. -/
def sample_rec : TWSE.PriceRec := ⟨"2330.TW", ⟨2024, 5, 20⟩, 100, 200, 50, 100, 1000⟩

/-- A concrete fetcher-oracle environment for routing witnesses: the
exchange fetcher returns one row. -/
def sample_env : TWSE.FetchEnv := ⟨none, none, some [sample_rec], none⟩

/-- Concrete failing input for Claim C4: four trading days over two ISO
weeks of May 2024 (any price series of at least 2 points fails the
returns-persist step identically). -/
def c4_series : List (TWSE.Date × ℚ) :=
  [(⟨2024, 5, 13⟩, 100), (⟨2024, 5, 16⟩, 102), (⟨2024, 5, 20⟩, 104), (⟨2024, 5, 23⟩, 103)]

/-- The row the update loop computes — and then loses to the
`NameError` — for 2024-05-20 of `c4_series`: daily `round6(104/102-1)`,
weekly `round6(103/102-1)` broadcast from the week ending Sunday
2024-05-26 (equal ISO week 21, equal year 2024), monthly null (a single
month yields no month-over-month return), cumulative `104/100 - 1`. -/
def c4_row : TWSE.DailyReturnRow :=
  ⟨⟨2024, 5, 20⟩, mkRat 2451 125000, some (mkRat 2451 250000), none, mkRat 1 25⟩

/-! ## Claim C1 -/

/-- Claim C1, counterexample: with requested window `[100, 105]` and a
persisted watermark `110` (already past the requested end), the next day
`111` is later than the requested start `100`, yet the effective start is
`100`, not `111` — refuting "the effective fetch start date equals the day
after that latest date whenever that day is later than the requested
start". -/
theorem C1_counterexample :
    100 < 110 + 1 ∧
    TWSE.effective_start_date 100 (some 105) (some 110) = 100 ∧
    ¬ TWSE.effective_start_date 100 (some 105) (some 110) = 110 + 1 := by
  decide

/-- Claim C1 (amended): for a well-formed window `start ≤ end` and a
persisted latest date `l`, the effective start equals `l + 1` exactly when
`l + 1` is later than the requested start *and* not later than the
requested end; otherwise it stays at the requested start.  Consequently
the effective start is never earlier than the requested start and never
later than the requested end. -/
theorem C1_effective_start_incremental (s e l : ℕ) (h : s ≤ e) :
    (s < l + 1 → l + 1 ≤ e →
      TWSE.effective_start_date s (some e) (some l) = l + 1) ∧
    ((l + 1 ≤ s ∨ e < l + 1) →
      TWSE.effective_start_date s (some e) (some l) = s) ∧
    s ≤ TWSE.effective_start_date s (some e) (some l) ∧
    TWSE.effective_start_date s (some e) (some l) ≤ e := by
  unfold TWSE.effective_start_date
  simp only [Option.getD_some]
  refine ⟨?_, ?_, ?_, ?_⟩ <;>
    · intros
      split
      all_goals try split
      all_goals omega

/-- Witness for Claim C1's amended theorem at the concrete window
`[10, 20]` with watermark `14`: the effective start is `15`. -/
theorem C1_witness :
    10 ≤ 20 ∧
    (10 < 14 + 1 → 14 + 1 ≤ 20 →
      TWSE.effective_start_date 10 (some 20) (some 14) = 14 + 1) :=
  ⟨by decide, (C1_effective_start_incremental 10 20 14 (by decide)).1⟩

/-! ## Claim C2 -/

/-- Claim C2: upserting the same batch of price rows twice for a symbol
(batch dates pairwise distinct, no other writer in between) leaves the
table identical to the state after the first call; on the second call the
pre-write existence query counts every batch row as a duplicate, so the
reported new-row count `max(len(values) - duplicates, 0)` is `0`. -/
theorem C2_upsert_twice (t : TWSE.PriceTable) (symbol : String)
    (values : List (ℕ × TWSE.PriceRow))
    (hnd : (values.map Prod.fst).Nodup) :
    TWSE.upsert_values (TWSE.upsert_values t symbol values) symbol values
      = TWSE.upsert_values t symbol values ∧
    TWSE.duplicate_count (TWSE.upsert_values t symbol values) symbol values
      = values.length ∧
    TWSE.new_insert_count (TWSE.upsert_values t symbol values) symbol values
      = 0 := by
  have happly := TWSE.upsert_values_apply symbol values
  have hdup :
      TWSE.duplicate_count (TWSE.upsert_values t symbol values) symbol values
        = values.length := by
    unfold TWSE.duplicate_count
    have hall : ∀ d ∈ (values.map Prod.fst).dedup,
        (TWSE.upsert_values t symbol values (symbol, d)).isSome = true := by
      intro d hd
      have hmem : d ∈ values.map Prod.fst := List.mem_dedup.mp hd
      rw [happly t (symbol, d)]
      have := TWSE.last_write_isSome_of_mem symbol d values hmem
      cases h : TWSE.last_write symbol (symbol, d) values with
      | some r => simp
      | none => rw [h] at this; simp at this
    rw [List.filter_eq_self.mpr hall, List.dedup_eq_self.mpr hnd,
      List.length_map]
  refine ⟨?_, hdup, ?_⟩
  · funext k
    rw [happly (TWSE.upsert_values t symbol values) k, happly t k]
    cases h : TWSE.last_write symbol k values with
    | some r => simp
    | none => simp
  · unfold TWSE.new_insert_count
    rw [hdup]
    omega

/-- Witness for Claim C2 on a concrete two-row batch over the empty table:
the second call reports 2 duplicates and 0 new rows. -/
theorem C2_witness :
    ((c2_batch.map Prod.fst).Nodup) ∧
    (TWSE.duplicate_count
        (TWSE.upsert_values (fun _ => none) "2330" c2_batch) "2330" c2_batch
      = c2_batch.length ∧
     TWSE.new_insert_count
        (TWSE.upsert_values (fun _ => none) "2330" c2_batch) "2330" c2_batch
      = 0) :=
  ⟨by decide, (C2_upsert_twice (fun _ => none) "2330" c2_batch (by decide)).2⟩

/-! ## Claim C3 -/

/-- Claim C3, counterexample: on closes `[100, 110, 99]` the calculator
emits (beyond the skipped null first position) daily returns
`0.10, -0.10` with cumulative returns `0.10` and `-0.01` — the cumulative
at the last position is `(1 + 0.10) * (1 - 0.10) - 1 = -0.01`, not the
claimed `-0.009`. -/
theorem C3_counterexample :
    TWSE.calculate_returns_daily [100, 110, 99]
      = ([(mkRat 1 10, mkRat 1 10), (mkRat (-1) 10, mkRat (-1) 100)] : List (ℚ × ℚ)) ∧
    ¬ (TWSE.calculate_returns_daily [100, 110, 99])[1]?
        = some (mkRat (-1) 10, mkRat (-9) 1000) := by
  decide

/-- Claim C3 (amended): for a series sorted ascending by date, the record
emitted at list position `t - 1` (position `t` of the close series, whose
position-0 return is null and skipped) carries daily return
`close_t/close_{t-1} - 1` and cumulative return
`(prod of (1 + daily) over positions 1..t) - 1`, both rounded to 6
decimals; closes `[100, 110, 99]` yield cumulative `-0.01` (not `-0.009`)
at the last position; fewer than 2 points give an empty result. -/
theorem C3_daily_returns (closes : List ℚ) :
    (closes.length < 2 → TWSE.calculate_returns_daily closes = []) ∧
    (∀ t, 1 ≤ t → t < closes.length →
      (TWSE.calculate_returns_daily closes)[t - 1]?
        = some (TWSE.round6 (TWSE.spec_daily_return closes t),
            TWSE.round6 (TWSE.spec_cumulative_return closes t))) := by
  constructor
  · intro h
    unfold TWSE.calculate_returns_daily
    rw [if_pos h]
  · intro t h1 h2
    cases closes with
    | nil => simp at h2
    | cons c0 rest =>
      have hrestlen : 1 ≤ rest.length := by
        simp only [List.length_cons] at h2
        omega
      have hlen : ¬ ((c0 :: rest).length < 2) := by
        simp only [List.length_cons]
        omega
      obtain ⟨j, rfl⟩ : ∃ j, t = j + 1 := ⟨t - 1, by omega⟩
      have hj : j < rest.length := by
        simp only [List.length_cons] at h2
        omega
      have hjlen : j < (TWSE.rets_from c0 rest).length := by
        rw [TWSE.rets_from_length]
        exact hj
      unfold TWSE.calculate_returns_daily
      rw [if_neg hlen]
      simp only [TWSE.pct_change]
      rw [TWSE.rets_from_zipWith rest c0]
      simp only [TWSE.cumprod1p, List.map_cons, List.zip_cons_cons,
        List.filterMap_cons, TWSE.daily_row]
      rw [TWSE.zip_cumprod_filterMap (TWSE.rets_from c0 rest) 1]
      simp only [Nat.add_sub_cancel]
      rw [TWSE.daily_fold_getElem? (TWSE.rets_from c0 rest) 1 j hjlen]
      have e1 : (TWSE.rets_from c0 rest).getD j 0
          = TWSE.spec_daily_return (c0 :: rest) (j + 1) := by
        rw [TWSE.rets_from_getD rest c0 j hj]
        unfold TWSE.spec_daily_return
        simp [List.getD_cons_succ]
      have e2 : (∏ i in Finset.range (j + 1), (1 + (TWSE.rets_from c0 rest).getD i 0))
          = ∏ i in Finset.Icc 1 (j + 1), (1 + TWSE.spec_daily_return (c0 :: rest) i) := by
        rw [← Nat.Ico_succ_right, Finset.prod_Ico_eq_prod_range]
        simp only [Nat.succ_sub_one]
        refine (Finset.prod_congr rfl ?_).symm
        intro i hi
        have hi' : i < rest.length := by
          simp only [Finset.mem_range] at hi
          omega
        rw [TWSE.rets_from_getD rest c0 i hi']
        unfold TWSE.spec_daily_return
        rw [Nat.add_comm 1 i]
        simp [List.getD_cons_succ]
      rw [e1, e2]
      unfold TWSE.spec_cumulative_return
      rw [one_mul]

/-- Witness for Claim C3's amended theorem on closes `[100, 110, 99]` at
position `t = 2`. -/
theorem C3_witness :
    (1 ≤ 2 ∧ 2 < ([100, 110, 99] : List ℚ).length) ∧
    (TWSE.calculate_returns_daily [100, 110, 99])[2 - 1]?
      = some (TWSE.round6 (TWSE.spec_daily_return [100, 110, 99] 2),
          TWSE.round6 (TWSE.spec_cumulative_return [100, 110, 99] 2)) :=
  ⟨⟨by decide, by decide⟩,
    (C3_daily_returns [100, 110, 99]).2 2 (by decide) (by decide)⟩

/-! ## Claim C5 -/

/-- Claim C5: no row in the batch written to `stock_returns` carries a
NaN or infinite value in any of the four return fields: whatever values
the upstream computation produced, each field is coerced to null before
the write, for every symbol and date. -/
theorem C5_no_nonfinite_persisted (rows : List TWSE.ReturnRowIn)
    (r : TWSE.ReturnRowIn) (hr : r ∈ TWSE.return_values_of rows) :
    TWSE.is_bad_float r.daily_return = false ∧
    TWSE.is_bad_float r.weekly_return = false ∧
    TWSE.is_bad_float r.monthly_return = false ∧
    TWSE.is_bad_float r.cumulative_return = false := by
  obtain ⟨s, _, rfl⟩ := List.mem_map.mp hr
  refine ⟨?_, ?_, ?_, ?_⟩ <;> exact TWSE.is_bad_float_coerce _

/-- Witness for Claim C5: a row arriving with NaN daily return, +inf
weekly return and -inf cumulative return is persisted with nulls in
those fields. -/
theorem C5_witness :
    (TWSE.ReturnRowIn.mk "2330" "2024-01-02" none none
        (some (TWSE.PyFloat.fin 1)) none)
      ∈ TWSE.return_values_of
        [TWSE.ReturnRowIn.mk "2330" "2024-01-02" (some TWSE.PyFloat.nan)
          (some TWSE.PyFloat.inf) (some (TWSE.PyFloat.fin 1))
          (some TWSE.PyFloat.ninf)] ∧
    TWSE.is_bad_float (TWSE.ReturnRowIn.mk "2330" "2024-01-02" none none
        (some (TWSE.PyFloat.fin 1)) none).daily_return = false :=
  ⟨by decide,
    (C5_no_nonfinite_persisted
      [TWSE.ReturnRowIn.mk "2330" "2024-01-02" (some TWSE.PyFloat.nan)
        (some TWSE.PyFloat.inf) (some (TWSE.PyFloat.fin 1))
        (some TWSE.PyFloat.ninf)]
      (TWSE.ReturnRowIn.mk "2330" "2024-01-02" none none
        (some (TWSE.PyFloat.fin 1)) none)
      (by decide)).1⟩

/-! ## Claim C6 -/

/-- Claim C6: a row that parses and falls inside the requested window is
kept iff all four of open/high/low/close are strictly below 30000, in
both the exchange fetcher and the generic fallback fetcher; a kept row
carries exactly the parsed prices (rounded to 2 decimals, as the code
always rounds), never clamped values, and dropping a violating row
leaves the rest of the returned series intact. -/
theorem C6_sanity_bound (code sym : String) (s e : TWSE.Date)
    (row : List (List Char)) (p : TWSE.ParsedTwseRow)
    (hp : TWSE.twse_parse_in_window s e row = some p)
    (r : TWSE.YfRow) (hin : (TWSE.date_le s r.dt ∧ TWSE.date_le r.dt e))
    (xs ys : List (List (List Char))) :
    ((TWSE.process_twse_row code s e row).isSome ↔
      TWSE.price_sanity_ok p.open_price p.high_price p.low_price p.close_price = true) ∧
    (TWSE.price_sanity_ok p.open_price p.high_price p.low_price p.close_price = true →
      TWSE.process_twse_row code s e row
        = some ⟨code ++ ".TW", p.dt, TWSE.round2 p.open_price, TWSE.round2 p.high_price,
            TWSE.round2 p.low_price, TWSE.round2 p.close_price, p.volume⟩) ∧
    ((TWSE.process_yf_row sym s e r).isSome ↔
      TWSE.price_sanity_ok r.open_price r.high_price r.low_price r.close_price = true) ∧
    (TWSE.process_twse_row code s e row = none →
      TWSE.fetch_twse_rows code s e (xs ++ row :: ys)
        = TWSE.fetch_twse_rows code s e xs ++ TWSE.fetch_twse_rows code s e ys) := by
  refine ⟨?_, ?_, ?_, ?_⟩
  · unfold TWSE.process_twse_row
    rw [hp]
    by_cases hs : TWSE.price_sanity_ok p.open_price p.high_price p.low_price
        p.close_price = true
    · simp [hs]
    · simp [hs]
  · intro hs
    unfold TWSE.process_twse_row
    rw [hp]
    simp [hs]
  · unfold TWSE.process_yf_row
    rw [if_pos hin]
    by_cases hs : TWSE.price_sanity_ok r.open_price r.high_price r.low_price
        r.close_price = true
    · simp [hs]
    · simp [hs]
  · intro hnone
    unfold TWSE.fetch_twse_rows
    rw [List.filterMap_append, List.filterMap_cons, hnone]

/-- Witness for Claim C6: on a window covering May 2024, the row with
close 29999 parses and is retained, and the row with close 31000 is
dropped while the rest of the series is unaffected. -/
theorem C6_witness :
    (TWSE.twse_parse_in_window ⟨2024, 1, 1⟩ ⟨2024, 12, 31⟩ c6_row_ok = some c6_parsed ∧
     (TWSE.date_le ⟨2024, 1, 1⟩ c6_yf.dt ∧ TWSE.date_le c6_yf.dt ⟨2024, 12, 31⟩)) ∧
    ((TWSE.process_twse_row "2330" ⟨2024, 1, 1⟩ ⟨2024, 12, 31⟩ c6_row_ok).isSome ↔
      TWSE.price_sanity_ok c6_parsed.open_price c6_parsed.high_price
        c6_parsed.low_price c6_parsed.close_price = true) ∧
    TWSE.price_sanity_ok c6_parsed.open_price c6_parsed.high_price
        c6_parsed.low_price c6_parsed.close_price = true ∧
    TWSE.process_twse_row "2330" ⟨2024, 1, 1⟩ ⟨2024, 12, 31⟩ c6_row_bad = none :=
  ⟨⟨by decide, by decide⟩,
    (C6_sanity_bound "2330" "2330.TW" ⟨2024, 1, 1⟩ ⟨2024, 12, 31⟩ c6_row_ok c6_parsed
      (by decide) c6_yf (by decide) [] []).1,
    by decide, by decide⟩

/-! ## Claim C7 -/

/-- Claim C7: every returned exchange row's local-era date `y/m/d` is
converted to the Gregorian date with year `y + 1911` before the window
comparison, every returned row's converted date lies inside the
inclusive `[start, end]` window, and a row whose converted date falls
outside the window is discarded. -/
theorem C7_era_window (s e : TWSE.Date) (row : List (List Char))
    (c0 ys ms ds : List Char) (y m d : ℕ)
    (h0 : row.get? 0 = some c0)
    (hsplit : TWSE.split_on_char '/' c0 = [ys, ms, ds])
    (hy : TWSE.parse_digits ys = some y)
    (hm : TWSE.parse_digits ms = some m)
    (hd : TWSE.parse_digits ds = some d) :
    (∀ p : TWSE.ParsedTwseRow, TWSE.twse_parse_in_window s e row = some p →
      p.dt = ⟨y + 1911, m, d⟩ ∧ (TWSE.date_le s p.dt ∧ TWSE.date_le p.dt e)) ∧
    (¬ (TWSE.date_le s ⟨y + 1911, m, d⟩ ∧ TWSE.date_le ⟨y + 1911, m, d⟩ e) →
      TWSE.twse_parse_in_window s e row = none ∧
      ∀ code, TWSE.process_twse_row code s e row = none) := by
  have hdate : TWSE.twse_parse_date row
      = (if TWSE.valid_date ⟨y + 1911, m, d⟩ then some ⟨y + 1911, m, d⟩ else none) := by
    unfold TWSE.twse_parse_date
    rw [h0]
    simp only [hsplit, hy, hm, hd]
  constructor
  · intro p hp
    unfold TWSE.twse_parse_in_window at hp
    rw [hdate] at hp
    by_cases hv : TWSE.valid_date ⟨y + 1911, m, d⟩ = true
    · rw [if_pos hv] at hp
      simp only [Option.some_bind] at hp
      by_cases hw : (TWSE.date_le s ⟨y + 1911, m, d⟩ ∧ TWSE.date_le ⟨y + 1911, m, d⟩ e)
      · rw [if_pos hw] at hp
        cases hn : TWSE.twse_parse_numeric row with
        | none => rw [hn] at hp; exact absurd hp (by simp)
        | some q =>
          rw [hn] at hp
          simp only [Option.map_some', Option.some.injEq] at hp
          subst hp
          exact ⟨rfl, hw⟩
      · rw [if_neg hw] at hp
        exact absurd hp (by simp)
    · rw [if_neg hv] at hp
      exact absurd hp (by simp)
  · intro hw
    have hnone : TWSE.twse_parse_in_window s e row = none := by
      unfold TWSE.twse_parse_in_window
      rw [hdate]
      by_cases hv : TWSE.valid_date ⟨y + 1911, m, d⟩ = true
      · rw [if_pos hv]
        simp only [Option.some_bind]
        rw [if_neg hw]
      · rw [if_neg hv]
        rfl
    refine ⟨hnone, fun code => ?_⟩
    unfold TWSE.process_twse_row
    rw [hnone]

/-- Witness for Claim C7 on the concrete row dated `113/05/20`: the
returned date is Gregorian 2024-05-20 and lies inside the window
`[2024-01-01, 2024-12-31]`. -/
theorem C7_witness :
    (c6_row_ok.get? 0 = some ("113/05/20".data) ∧
     TWSE.split_on_char '/' ("113/05/20".data)
        = ["113".data, "05".data, "20".data] ∧
     TWSE.parse_digits ("113".data) = some 113 ∧
     TWSE.parse_digits ("05".data) = some 5 ∧
     TWSE.parse_digits ("20".data) = some 20) ∧
    (∀ p : TWSE.ParsedTwseRow,
      TWSE.twse_parse_in_window ⟨2024, 1, 1⟩ ⟨2024, 12, 31⟩ c6_row_ok = some p →
      p.dt = ⟨113 + 1911, 5, 20⟩ ∧
        (TWSE.date_le ⟨2024, 1, 1⟩ p.dt ∧ TWSE.date_le p.dt ⟨2024, 12, 31⟩)) :=
  ⟨⟨by decide, by decide, by decide, by decide, by decide⟩,
    (C7_era_window ⟨2024, 1, 1⟩ ⟨2024, 12, 31⟩ c6_row_ok ("113/05/20".data)
      ("113".data) ("05".data) ("20".data) 113 5 20
      (by decide) (by decide) (by decide) (by decide) (by decide)).1⟩

/-! ## Claim C8 -/

/-- Claim C8, counterexample: the code maps the `--` sentinel to the
numeric value 0 for price cells exactly as it does for the volume cell
(src/server.py 527-530), so a row whose open cell is `--` is kept with
open price 0 — the sentinel is not treated as unavailable for prices. -/
theorem C8_counterexample :
    TWSE.parse_price_cell ("--".data) = some 0 ∧
    TWSE.process_twse_row "2330" ⟨2024, 1, 1⟩ ⟨2024, 12, 31⟩ c8_row
      = some ⟨"2330.TW", ⟨2024, 5, 20⟩, 0, 200, 50, 100, 1000⟩ := by
  decide

/-- Claim C8 (amended): numeric cells have thousands separators stripped
before parsing, and the `--` sentinel maps to the numeric value zero for
the volume cell and for each of the four price cells alike (the zero
price then passes the strictly-below-30000 sanity bound, so the row is
kept with that price stored as 0, rather than being treated as
unavailable). -/
theorem C8_sentinel_parsing (s : List Char) (hs : ¬ s = ['-', '-']) :
    (TWSE.parse_volume_cell ['-', '-'] = some 0 ∧
     TWSE.parse_price_cell ['-', '-'] = some 0) ∧
    (TWSE.parse_price_cell s = TWSE.parse_decimal (TWSE.strip_commas s) ∧
     TWSE.parse_volume_cell s
       = (TWSE.parse_digits (TWSE.strip_commas s)).map (fun n => (n : ℤ))) := by
  refine ⟨⟨by decide, by decide⟩, ?_, ?_⟩
  · unfold TWSE.parse_price_cell
    rw [if_neg hs]
  · unfold TWSE.parse_volume_cell
    rw [if_neg hs]

/-- Witness for Claim C8's amended theorem on the cell `1,234`: the
separator is stripped and the cell parses as 1234. -/
theorem C8_witness :
    (¬ ("1,234".data = ['-', '-'])) ∧
    (TWSE.parse_price_cell ("1,234".data)
       = TWSE.parse_decimal (TWSE.strip_commas ("1,234".data)) ∧
     TWSE.parse_volume_cell ("1,234".data)
       = (TWSE.parse_digits (TWSE.strip_commas ("1,234".data))).map (fun n => (n : ℤ))) ∧
    TWSE.parse_price_cell ("1,234".data) = some 1234 :=
  ⟨by decide, (C8_sentinel_parsing ("1,234".data) (by decide)).2, by decide⟩

/-! ## Claim C9 -/

/-- Claim C9: `^TWII` is routed exclusively to the dedicated direct
full-history call (no exchange, over-the-counter or generic-strategy
call); symbol `2330` with no catalog entry and no suffix is classified
listed by the code-range heuristic (2330 falls outside every OTC range)
and routed to the exchange fetcher first, with the yfinance fallback
called exactly when the primary fetch returns no data. -/
theorem C9_routing (cache : List TWSE.CatalogEntry) (env : TWSE.FetchEnv)
    (hno : TWSE.catalog_market cache "2330" = none) :
    TWSE.fetch_stock_data cache "^TWII" env
      = (env.twii_result, [TWSE.FetchCall.twii_direct]) ∧
    TWSE.is_otc_stock cache "2330" = false ∧
    (TWSE.nonempty_result env.twse_result = true →
      TWSE.fetch_stock_data cache "2330" env
        = (env.twse_result, [TWSE.FetchCall.twse])) ∧
    (TWSE.nonempty_result env.twse_result = false →
      TWSE.fetch_stock_data cache "2330" env
        = (env.yf_result, [TWSE.FetchCall.twse, TWSE.FetchCall.yfinance])) := by
  have hotc : TWSE.is_otc_stock cache "2330" = false := by
    unfold TWSE.is_otc_stock
    rw [hno]
    decide
  have hroute : TWSE.routes_otc cache "2330" = false := by
    unfold TWSE.routes_otc
    have h1 : TWSE.market_suffix_of "2330" = none := by decide
    have h2 : TWSE.stock_code_of "2330" = "2330" := by decide
    rw [h1, h2, hotc]
    rfl
  have hsym : ¬ (("2330" : String) = "^TWII") := by decide
  refine ⟨?_, hotc, ?_, ?_⟩
  · unfold TWSE.fetch_stock_data
    rw [if_pos rfl]
  · intro h
    unfold TWSE.fetch_stock_data
    rw [if_neg hsym, hroute]
    simp [h]
  · intro h
    unfold TWSE.fetch_stock_data
    rw [if_neg hsym, hroute]
    simp [h]

/-- Witness for Claim C9 with an empty catalog: `2330` is classified
listed and, the exchange fetch being non-empty, yfinance is not
called. -/
theorem C9_witness :
    TWSE.catalog_market [] "2330" = none ∧
    (TWSE.nonempty_result sample_env.twse_result = true →
      TWSE.fetch_stock_data [] "2330" sample_env
        = (sample_env.twse_result, [TWSE.FetchCall.twse])) :=
  ⟨by decide, (C9_routing [] sample_env (by decide)).2.2.1⟩

/-! ## Claim C10 -/

/-- Claim C10: `is_otc_stock` is total by construction (every exception
path of the Python code is modelled by the `False` fallback), and a
non-numeric code with no catalog match is classified not
over-the-counter, so the orchestrator routes such a suffix-free symbol
to the listed-market (exchange) fetcher first. -/
theorem C10_is_otc_total (cache : List TWSE.CatalogEntry) (code : String)
    (env : TWSE.FetchEnv)
    (hcat : TWSE.catalog_market cache code = none)
    (hnum : TWSE.parse_digits code.data = none)
    (hsuf : TWSE.has_tw_suffix code = false)
    (hcode : TWSE.stock_code_of code = code)
    (hsym : ¬ code = "^TWII") :
    TWSE.is_otc_stock cache code = false ∧
    ((TWSE.fetch_stock_data cache code env).2).head? = some TWSE.FetchCall.twse := by
  have hotc : TWSE.is_otc_stock cache code = false := by
    unfold TWSE.is_otc_stock
    rw [hcat, hnum]
  have hroute : TWSE.routes_otc cache code = false := by
    unfold TWSE.routes_otc
    unfold TWSE.market_suffix_of
    rw [hsuf, hcode, hotc]
    simp
  refine ⟨hotc, ?_⟩
  unfold TWSE.fetch_stock_data
  rw [if_neg hsym, hroute]
  simp only [Bool.false_eq_true, if_false]
  by_cases h : TWSE.nonempty_result env.twse_result = true
  · simp [h]
  · simp [h]

/-- Witness for Claim C10 on the non-numeric code `ABC` with an empty
catalog. -/
theorem C10_witness :
    (TWSE.catalog_market [] "ABC" = none ∧
     TWSE.parse_digits ("ABC".data) = none ∧
     TWSE.has_tw_suffix "ABC" = false ∧
     TWSE.stock_code_of "ABC" = "ABC" ∧
     ¬ (("ABC" : String) = "^TWII")) ∧
    TWSE.is_otc_stock [] "ABC" = false :=
  ⟨⟨by decide, by decide, by decide, by decide, by decide⟩,
    (C10_is_otc_total [] "ABC" sample_env (by decide) (by decide) (by decide)
      (by decide) (by decide)).1⟩

/-! ## Claim C4 -/

/-- Claim C4: the per-row broadcast the claim describes is computed by
the update loop, but the code never persists any return row — the
accumulator `return_values` is unbound, so for every input series the
returns-persist step raises `NameError` and the `stock_returns` write
is unreachable.  At the failing input `c4_series`, the loop computes
(and then loses) the row dated 2024-05-20 carrying the weekly return
broadcast by equal ISO week number and equal year, with null — not
zero — in the matchless monthly field; the persist step nevertheless
errors and writes nothing, where the claim expects that row to be
persisted. -/
theorem C4_returns_write_unreachable :
    (∀ series : List (TWSE.Date × ℚ),
      TWSE.update_returns_result series = Except.error TWSE.PyError.nameError) ∧
    c4_row ∈ TWSE.return_rows_computed c4_series ∧
    TWSE.update_returns_result c4_series
      = Except.error TWSE.PyError.nameError := by
  have hall : ∀ series : List (TWSE.Date × ℚ),
      TWSE.update_returns_result series = Except.error TWSE.PyError.nameError := by
    intro series
    unfold TWSE.update_returns_result TWSE.return_values_after_loop
    rw [TWSE.foldl_append_unbound]
  exact ⟨hall, by decide, hall c4_series⟩

